import Mathlib

/-!
# Sales & Marketing Productivity Game — verification of the progression and
persistence engine

A shallow embedding of the core logic of the app: the progression engine
(`addEntry`), the weekly level reset, the per-profile local storage layer
(`loadPersonState` / `savePersonState` / `migrateState`), profile list
management (`addPerson` / `removePerson`) and the local leaderboard
aggregation.

Modelling conventions, chosen to mirror the JavaScript source:
* Calendar dates (ISO `YYYY-MM-DD` strings in the source) are modelled as
  `Nat` day numbers.  Lexicographic comparison of fixed-width ISO date
  strings agrees with chronological order, so the string
  comparisons of the source (`h.date >= startISO`, `h.date === dateToday`) become `Nat`
  comparisons, "yesterday" becomes `today - 1`, and "7 days before today"
  becomes `today - 7`.
* ISO week keys (strings such as `"2025-W41"`) are opaque `String`s; the
  week key of the current instant is passed in as a parameter `nowKey`, standing
  for `isoWeekKey(new Date())`.
* `localStorage` is an association list from keys to stored values.  A
  stored value is either a parseable JSON document (modelled already
  parsed, with `Option` fields for keys a document may lack) or an
  unparseable blob (`Raw.corrupt`), on which `JSON.parse` throws and
  `safeJSONParse` returns the fallback.
* Point values are `Int`, since nothing in the logging path restricts their
  sign.  Fresh entry/quest identifiers (`uid()` in the source) and the
  current timestamp (`Date.now()`) are passed as parameters.
-/

/- -------------------- Utilities -------------------- -/

/-- The source function `xpForLevel`: XP threshold to leave the given level,
`100 + (level - 1) * 75`. -/
def xpForLevel (level : Int) : Int := 100 + (level - 1) * 75

/-- JavaScript `a || b` on an optional string: the right operand is used
when the left is absent or the empty string (both falsy). -/
def jsOrStr (a : Option String) (b : String) : String :=
  match a with
  | some s => if s = "" then b else s
  | none => b

/- -------------------- Data model -------------------- -/

/-- Per-person settings object. -/
structure Settings where
  dailyGoal : Int
  pomodoroMinutes : Int
  shortBreakMinutes : Int
  longBreakMinutes : Int
  theme : String
deriving Repr, DecidableEq

/-- A reusable action template.  `emoji` is optional in stored data and
backfilled during migration. -/
structure Quest where
  id : String
  title : String
  points : Int
  category : String
  emoji : Option String
deriving Repr, DecidableEq

/-- One completed, logged activity (an element of `history`). -/
structure Entry where
  id : String
  date : Nat
  questId : Option String
  title : String
  category : String
  points : Int
  emoji : Option String
  timestamp : Nat
deriving Repr, DecidableEq

/-- The full progression record of one profile, as persisted. -/
structure PersonState where
  version : Nat
  name : String
  settings : Settings
  quests : List Quest
  history : List Entry
  xp : Int
  level : Int
  streak : Int
  lastGoalDate : Option Nat
  weekKey : String
deriving Repr, DecidableEq

/- -------------------- Defaults -------------------- -/

/-- The source constant `defaultQuests`.  The `uid()` identifiers are opaque
random strings generated once at module load; they are modelled as fixed
distinct strings since nothing depends on their value. -/
def defaultQuests : List Quest :=
  [ { id := "dq1", title := "Prospecting call", points := 5, category := "Sales", emoji := some "📞" },
    { id := "dq2", title := "Book a meeting", points := 15, category := "Sales", emoji := some "📅" },
    { id := "dq3", title := "Send proposal/quote", points := 20, category := "Sales", emoji := some "📨" },
    { id := "dq4", title := "Close a deal", points := 75, category := "Sales", emoji := some "🏁" },
    { id := "dq5", title := "LinkedIn post", points := 10, category := "Marketing", emoji := some "📝" },
    { id := "dq6", title := "5 meaningful comments", points := 5, category := "Marketing", emoji := some "💬" },
    { id := "dq7", title := "Email newsletter", points := 20, category := "Marketing", emoji := some "📧" },
    { id := "dq8", title := "Add 10 leads to CRM", points := 10, category := "Ops", emoji := some "🗂️" } ]

/-- The source constant `defaultSettings`. -/
def defaultSettings : Settings :=
  { dailyGoal := 100, pomodoroMinutes := 25, shortBreakMinutes := 5,
    longBreakMinutes := 15, theme := "system" }

def STORAGE_VERSION : Nat := 2

/-- The source function `makeFreshState(name)`: a brand-new record.  `nowKey` stands for
`isoWeekKey()` evaluated at creation time. -/
def makeFreshState (name : String) (nowKey : String) : PersonState :=
  { version := STORAGE_VERSION
    name := name
    settings := defaultSettings
    quests := defaultQuests
    history := []
    xp := 0
    level := 1
    streak := 0
    lastGoalDate := none
    weekKey := nowKey }

/- -------------------- Level-up loop -------------------- -/

/-- The level-up resolution loop of `addEntry` / `completeQuest`:

`while (remainder >= needed) { remainder -= needed; newLevel += 1; needed = xpForLevel(newLevel); }`

returning the final `(newLevel, remainder)`.  Termination: once the level
is at least 1 every threshold is at least 100, so the remainder strictly
decreases; below level 1 the level itself strictly increases toward 1. -/
def levelLoop (level remainder : Int) : Int × Int :=
  if xpForLevel level ≤ remainder then
    levelLoop (level + 1) (remainder - xpForLevel level)
  else
    (level, remainder)
termination_by ((1 - level).toNat, remainder.toNat)
decreasing_by
  simp only [Prod.lex_def, xpForLevel] at *
  omega

/- -------------------- Progression engine (`addEntry`) -------------------- -/

/-- The caller-supplied part of an action: what `addEntry` receives in its
argument object `{ title, category, points, emoji, questId = null }`. -/
structure ActionArgs where
  title : String
  category : Option String
  points : Int
  emoji : Option String
  questId : Option String
deriving Repr, DecidableEq

/-- Sum of the point values of the entries logged on day `d`
(`history.filter(h => h.date === d).reduce((s, h) => s + h.points, 0)`). -/
def sumOnDay (hist : List Entry) (d : Nat) : Int :=
  (hist.filter (fun h => h.date = d)).foldl (fun acc h => acc + h.points) 0

/-- The source function `addEntry` (the central entry-add used by quest
completion and the focus timer; `completeQuest` in the older revision is the
same computation).  Besides the argument object it receives the ambient
values the source reads from its environment: the active profile `person`,
the current record `s`, the current date `dateToday`, a fresh identifier
`newId` (`uid()`), and the current instant `now` (`Date.now()`).

When no profile is selected the source alerts and returns without touching
any state; this is modelled as `Except.error` carrying the alert text.
Otherwise the new record is returned.  Note the source stores `xp: newXP`
(the un-reduced total) while `level` comes from the loop; the remainder
computed by the loop is discarded. -/
def addEntry (person : String) (s : PersonState) (args : ActionArgs)
    (dateToday : Nat) (newId : String) (now : Nat) : Except String PersonState :=
  if person = "" then
    .error "Select or add a person first."
  else
    let entry : Entry :=
      { id := newId
        date := dateToday
        questId := args.questId
        title := args.title
        category := jsOrStr args.category "General"
        points := args.points
        emoji := args.emoji
        timestamp := now }
    let newHistory := s.history ++ [entry]
    let newXP := s.xp + args.points
    let lr := levelLoop s.level newXP
    let newLevel := lr.1
    let totalToday := sumOnDay newHistory dateToday
    let goalHit := totalToday ≥ s.settings.dailyGoal ∧ s.lastGoalDate ≠ some dateToday
    let newStreak :=
      if goalHit then (if s.lastGoalDate = some (dateToday - 1) then s.streak + 1 else 1)
      else s.streak
    let newLastGoalDate := if goalHit then some dateToday else s.lastGoalDate
    .ok { s with
          history := newHistory
          xp := newXP
          level := newLevel
          streak := newStreak
          lastGoalDate := newLastGoalDate
          name := person }

/- -------------------- Weekly reset -------------------- -/

def RESET_LEVEL_AT_WEEK_START : Bool := true
def WEEKLY_RESET_LEVEL : Int := 1
def WEEKLY_RESET_XP : Int := 0

/-- The weekly-reset effect from the source: when a profile is active and
the stored `weekKey` differs from the ISO week key of the current instant, reset
level and XP to the configured values and stamp the current week key;
otherwise leave the record alone. -/
def weeklyResetCheck (person : String) (nowKey : String) (s : PersonState) : PersonState :=
  if RESET_LEVEL_AT_WEEK_START = false ∨ person = "" then s
  else if s.weekKey ≠ nowKey then
    { s with level := WEEKLY_RESET_LEVEL, xp := WEEKLY_RESET_XP, weekKey := nowKey }
  else s

/- -------------------- Local storage -------------------- -/

/-- A parsed per-person settings document: every key may be absent. -/
structure ParsedSettings where
  dailyGoal : Option Int
  pomodoroMinutes : Option Int
  shortBreakMinutes : Option Int
  longBreakMinutes : Option Int
  theme : Option String
deriving Repr, DecidableEq

/-- A parsed stored record: a JSON object read back from storage, in which
any expected key may be absent (older schema versions, hand-edited data).
`lastGoalDate` distinguishes "key absent" (outer `none`) from "key present
and null" (`some none`). -/
structure Parsed where
  version : Option Nat
  name : Option String
  settings : Option ParsedSettings
  quests : Option (List Quest)
  history : Option (List Entry)
  xp : Option Int
  level : Option Int
  streak : Option Int
  lastGoalDate : Option (Option Nat)
  weekKey : Option String
deriving Repr, DecidableEq

/-- A value held in local storage under one key: either an unparseable blob
(on which `JSON.parse` throws, so `safeJSONParse` yields the fallback) or a
parseable document. -/
inductive Raw where
  | corrupt : Raw
  | good : Parsed → Raw
deriving Repr, DecidableEq

/-- The `localStorage` backend: an association list from keys to raw stored
values. -/
def Storage := List (String × Raw)

instance : DecidableEq Storage := inferInstanceAs (DecidableEq (List (String × Raw)))

/-- The browser API `localStorage.getItem`. -/
def getItem (st : Storage) (k : String) : Option Raw :=
  match st with
  | [] => none
  | (k0, v0) :: rest => if k0 = k then some v0 else getItem rest k

/-- The browser API `localStorage.setItem`: replace the value under `k`, or add the key. -/
def setItem (st : Storage) (k : String) (v : Raw) : Storage :=
  match st with
  | [] => [(k, v)]
  | (k0, v0) :: rest => if k0 = k then (k, v) :: rest else (k0, v0) :: setItem rest k v

/-- The source function `personKey(person)`: the storage key of the record of one profile.  The
source prepends its versioned storage namespace string. -/
def personKey (person : String) : String :=
  "sm-productivity-game:v2:person:" ++ person

/-- The spread-merge of stored settings over `defaultSettings`: field-by-field
merge of stored settings over the defaults. -/
def mergeSettings (ps : Option ParsedSettings) : Settings :=
  match ps with
  | none => defaultSettings
  | some p =>
    { dailyGoal := p.dailyGoal.getD defaultSettings.dailyGoal
      pomodoroMinutes := p.pomodoroMinutes.getD defaultSettings.pomodoroMinutes
      shortBreakMinutes := p.shortBreakMinutes.getD defaultSettings.shortBreakMinutes
      longBreakMinutes := p.longBreakMinutes.getD defaultSettings.longBreakMinutes
      theme := p.theme.getD defaultSettings.theme }

/-- The source expression `(parsed.quests?.length ? parsed.quests : defaultQuests)` with a default icon backfilled on each quest:
use the stored quest list unless absent or empty, and backfill a default
icon on each quest that lacks one. -/
def migrateQuests (pq : Option (List Quest)) : List Quest :=
  (match pq with
   | some qs => if qs.length = 0 then defaultQuests else qs
   | none => defaultQuests).map (fun (q : Quest) => { q with emoji := some (q.emoji.getD "🎯") })

/-- The source function `migrateState(parsed, person)`: spread a fresh base under the parsed
document, then force the schema version, the name, the merged settings, the
migrated quest list, and a present `weekKey` (backfilled with the current
key of the current week when the stored one is absent or empty). -/
def migrateState (parsed : Parsed) (person : String) (nowKey : String) : PersonState :=
  let base := makeFreshState person nowKey
  { version := STORAGE_VERSION
    name := person
    settings := mergeSettings parsed.settings
    quests := migrateQuests parsed.quests
    history := parsed.history.getD base.history
    xp := parsed.xp.getD base.xp
    level := parsed.level.getD base.level
    streak := parsed.streak.getD base.streak
    lastGoalDate := parsed.lastGoalDate.getD base.lastGoalDate
    weekKey := jsOrStr parsed.weekKey base.weekKey }

/-- The source function `loadPersonState(person)`: falsy person ⇒ fresh anonymous record; no
stored raw value or an unparseable one ⇒ fresh record; otherwise migrate
the parsed document. -/
def loadPersonState (person : String) (st : Storage) (nowKey : String) : PersonState :=
  if person = "" then makeFreshState "" nowKey
  else
    match getItem st (personKey person) with
    | none => makeFreshState person nowKey
    | some Raw.corrupt => makeFreshState person nowKey
    | some (Raw.good parsed) => migrateState parsed person nowKey

/-- The serialization `JSON.stringify` of the record (with the schema version stamped) as a stored
document: every key present. -/
def serializeState (s : PersonState) : Parsed :=
  { version := some STORAGE_VERSION
    name := some s.name
    settings := some
      { dailyGoal := some s.settings.dailyGoal
        pomodoroMinutes := some s.settings.pomodoroMinutes
        shortBreakMinutes := some s.settings.shortBreakMinutes
        longBreakMinutes := some s.settings.longBreakMinutes
        theme := some s.settings.theme }
    quests := some s.quests
    history := some s.history
    xp := some s.xp
    level := some s.level
    streak := some s.streak
    lastGoalDate := some s.lastGoalDate
    weekKey := some s.weekKey }

/-- The source function `savePersonState(person, state)`: a falsy person is a no-op, otherwise
the serialized record is written under the key of the person. -/
def savePersonState (person : String) (s : PersonState) (st : Storage) : Storage :=
  if person = "" then st
  else setItem st (personKey person) (Raw.good (serializeState s))

/- -------------------- Profile list (People bar) -------------------- -/

/-- The profile-related pieces of the application state: the name list, the
storage backend, and the active person. -/
structure AppProfiles where
  profiles : List String
  storage : Storage
  person : String
deriving DecidableEq

/-- JavaScript `String.prototype.trim`: strip leading and trailing
whitespace. -/
def jsTrim (s : String) : String :=
  ⟨((s.data.dropWhile Char.isWhitespace).reverse.dropWhile Char.isWhitespace).reverse⟩

/-- Insert into a sorted name list (the source sorts with
`localeCompare`; modelled as code-point order, which no claim depends on). -/
def insertSorted (x : String) : List String → List String
  | [] => [x]
  | y :: ys => if x < y then x :: y :: ys else y :: insertSorted x ys

def sortNames (l : List String) : List String := l.foldr insertSorted []

/-- The source function `addPerson` from the People bar: trim the typed name; an empty result is
ignored; a name not yet listed is inserted into the sorted list; a backing
record is created only when none is stored; the person becomes active. -/
def addPerson (newName : String) (a : AppProfiles) (nowKey : String) : AppProfiles :=
  let name := jsTrim newName
  if name = "" then a
  else
    let profiles1 :=
      if a.profiles.contains name then a.profiles
      else sortNames (a.profiles ++ [name])
    let storage1 :=
      match getItem a.storage (personKey name) with
      | none => savePersonState name (makeFreshState name nowKey) a.storage
      | some _ => a.storage
    { profiles := profiles1, storage := storage1, person := name }

/-- The source function `removePerson`: drop the active name from the list (the stored record
stays in storage) and activate the first remaining name, if any.  The
confirmation dialog is modelled as accepted. -/
def removePerson (a : AppProfiles) : AppProfiles :=
  if a.person = "" then a
  else
    let next := a.profiles.filter (fun p => p ≠ a.person)
    { profiles := next, storage := a.storage, person := next.headD "" }

/- -------------------- Leaderboard -------------------- -/

/-- The leaderboard total of one profile for the week range: load the record and
sum the points of history entries with `h.date >= startISO`, where
`startISO` is the date 7 days before today (`start.setDate(now.getDate() - 7)`). -/
def leaderboardTotal (p : String) (st : Storage) (today : Nat) (nowKey : String) : Int :=
  ((loadPersonState p st nowKey).history.filter (fun h => today - 7 ≤ h.date)).foldl
    (fun acc h => acc + h.points) 0

/-- Insertion sort of `(name, points)` rows by points, descending (the
source sorts with `(a, b) => b.points - a.points`). -/
def insertRowDesc (r : String × Int) : List (String × Int) → List (String × Int)
  | [] => [r]
  | r0 :: rest => if r0.2 < r.2 then r :: r0 :: rest else r0 :: insertRowDesc r rest

def sortRowsDesc (l : List (String × Int)) : List (String × Int) := l.foldr insertRowDesc []

/-- The leaderboard rows for the "Last 7 days" range: one `(name, total)`
row per profile, sorted by total descending. -/
def leaderboardRows (profiles : List String) (st : Storage) (today : Nat)
    (nowKey : String) : List (String × Int) :=
  sortRowsDesc (profiles.map (fun p => (p, leaderboardTotal p st today nowKey)))

/-- The window predicate of the claim, written from the words of the spec for
comparison with the filter in the source: a date within
`[today - 7 days, today]` inclusive. -/
def specInWindow (today : Nat) (d : Nat) : Prop := today - 7 ≤ d ∧ d ≤ today

instance (today d : Nat) : Decidable (specInWindow today d) :=
  inferInstanceAs (Decidable (_ ∧ _))

/-- The leaderboard total as the claim words it: the sum over history
entries whose date lies within the inclusive window. -/
def specWindowTotal (p : String) (st : Storage) (today : Nat) (nowKey : String) : Int :=
  ((loadPersonState p st nowKey).history.filter
      (fun h => decide (specInWindow today h.date))).foldl
    (fun acc h => acc + h.points) 0

/- -------------------- Helper lemmas -------------------- -/

lemma sumOnDay_append_today (l : List Entry) (e : Entry) (d : Nat) (he : e.date = d) :
    sumOnDay (l ++ [e]) d = sumOnDay l d + e.points := by
  simp [sumOnDay, List.filter_append, he]

lemma mem_insertSorted (x y : String) (l : List String) :
    y ∈ insertSorted x l ↔ y = x ∨ y ∈ l := by
  induction l with
  | nil => simp [insertSorted]
  | cons z zs ih =>
    by_cases hxz : x < z
    · simp [insertSorted, hxz]
    · simp only [insertSorted, if_neg hxz, List.mem_cons, ih]
      tauto

lemma mem_sortNames (y : String) (l : List String) :
    y ∈ sortNames l ↔ y ∈ l := by
  induction l with
  | nil => simp [sortNames]
  | cons z zs ih =>
    simp only [sortNames, List.foldr_cons] at *
    rw [mem_insertSorted]
    simp [ih]

lemma levelLoop_of_le (l r : Int) (h : xpForLevel l ≤ r) :
    levelLoop l r = levelLoop (l + 1) (r - xpForLevel l) := by
  rw [levelLoop.eq_def]
  simp [h]

lemma levelLoop_of_lt (l r : Int) (h : r < xpForLevel l) :
    levelLoop l r = (l, r) := by
  rw [levelLoop.eq_def]
  simp [not_le.mpr h]

/-- The 300-point example action used by several concrete evaluations. -/
def act300 : ActionArgs :=
  { title := "Close a deal", category := some "Sales", points := 300,
    emoji := none, questId := none }

/- -------------------- Theorems about the claims -------------------- -/

/-- C10: for the empty profile name, loading yields a fresh record without
consulting the storage backend (the result is the same for every backend),
and saving is a no-op on the backend. -/
theorem emptyPerson_load_fresh_save_noop (st st2 : Storage) (nowKey : String)
    (s : PersonState) :
    loadPersonState "" st nowKey = makeFreshState "" nowKey
    ∧ loadPersonState "" st nowKey = loadPersonState "" st2 nowKey
    ∧ savePersonState "" s st = st := by
  refine ⟨rfl, rfl, ?_⟩
  simp [savePersonState]

/-- C7: loading a profile whose stored data is absent or unparseable never
fails: the result is the fresh record — level 1, zero XP, empty history,
default settings and quests — exactly as if nothing had been stored. -/
theorem load_corrupt_or_absent_is_fresh (person : String) (st : Storage) (nowKey : String)
    (h : getItem st (personKey person) = none
        ∨ getItem st (personKey person) = some Raw.corrupt) :
    loadPersonState person st nowKey = makeFreshState person nowKey
    ∧ loadPersonState person st nowKey = loadPersonState person [] nowKey
    ∧ (loadPersonState person st nowKey).level = 1
    ∧ (loadPersonState person st nowKey).xp = 0
    ∧ (loadPersonState person st nowKey).history = []
    ∧ (loadPersonState person st nowKey).settings = defaultSettings
    ∧ (loadPersonState person st nowKey).quests = defaultQuests := by
  have hload : loadPersonState person st nowKey = makeFreshState person nowKey := by
    by_cases hp : person = ""
    · subst hp; rfl
    · unfold loadPersonState
      rcases h with h | h <;> simp [hp, h]
  have hempty : loadPersonState person [] nowKey = makeFreshState person nowKey := by
    by_cases hp : person = ""
    · subst hp; rfl
    · unfold loadPersonState
      simp [hp, getItem]
  exact ⟨hload, by rw [hload, hempty], by rw [hload]; rfl, by rw [hload]; rfl,
    by rw [hload]; rfl, by rw [hload]; rfl, by rw [hload]; rfl⟩

/-- Witness for C7 at a concrete input: a backend holding an unparseable
blob under the key of the profile. -/
theorem load_corrupt_or_absent_is_fresh_witness :
    loadPersonState "bob" [(personKey "bob", Raw.corrupt)] "2025-W41"
        = makeFreshState "bob" "2025-W41"
    ∧ loadPersonState "bob" [(personKey "bob", Raw.corrupt)] "2025-W41"
        = loadPersonState "bob" [] "2025-W41"
    ∧ (loadPersonState "bob" [(personKey "bob", Raw.corrupt)] "2025-W41").level = 1
    ∧ (loadPersonState "bob" [(personKey "bob", Raw.corrupt)] "2025-W41").xp = 0
    ∧ (loadPersonState "bob" [(personKey "bob", Raw.corrupt)] "2025-W41").history = []
    ∧ (loadPersonState "bob" [(personKey "bob", Raw.corrupt)] "2025-W41").settings
        = defaultSettings
    ∧ (loadPersonState "bob" [(personKey "bob", Raw.corrupt)] "2025-W41").quests
        = defaultQuests :=
  load_corrupt_or_absent_is_fresh "bob" [(personKey "bob", Raw.corrupt)] "2025-W41"
    (Or.inr (by decide))

/-- C8: migrating a stored record that lacks `weekKey` backfills it with the
ISO week key of the current instant, keeps the other stored progression
values, and the subsequent weekly-reset check leaves the migrated record
unchanged (no forced reset). -/
theorem migrate_backfills_weekKey (parsed : Parsed) (person nowKey : String)
    (h : parsed.weekKey = none) :
    (migrateState parsed person nowKey).weekKey = nowKey
    ∧ weeklyResetCheck person nowKey (migrateState parsed person nowKey)
        = migrateState parsed person nowKey
    ∧ (∀ l, parsed.history = some l → (migrateState parsed person nowKey).history = l)
    ∧ (∀ x, parsed.xp = some x → (migrateState parsed person nowKey).xp = x)
    ∧ (∀ x, parsed.level = some x → (migrateState parsed person nowKey).level = x)
    ∧ (∀ x, parsed.streak = some x → (migrateState parsed person nowKey).streak = x)
    ∧ (∀ x, parsed.lastGoalDate = some x →
        (migrateState parsed person nowKey).lastGoalDate = x) := by
  have hwk : (migrateState parsed person nowKey).weekKey = nowKey := by
    simp [migrateState, jsOrStr, h, makeFreshState]
  refine ⟨hwk, ?_, ?_, ?_, ?_, ?_, ?_⟩
  · unfold weeklyResetCheck
    simp [hwk]
  · intro l hl; simp [migrateState, hl]
  · intro x hx; simp [migrateState, hx]
  · intro x hx; simp [migrateState, hx]
  · intro x hx; simp [migrateState, hx]
  · intro x hx; simp [migrateState, hx]

/-- Witness for C8: a concrete stored record with history, XP 40, level 2,
streak 3, and no `weekKey`. -/
theorem migrate_backfills_weekKey_witness :
    (migrateState
        { version := some 2, name := some "bob", settings := none, quests := none,
          history := some [], xp := some 40, level := some 2, streak := some 3,
          lastGoalDate := some (some 19999), weekKey := none }
        "bob" "2025-W41").weekKey = "2025-W41"
    ∧ weeklyResetCheck "bob" "2025-W41"
        (migrateState
          { version := some 2, name := some "bob", settings := none, quests := none,
            history := some [], xp := some 40, level := some 2, streak := some 3,
            lastGoalDate := some (some 19999), weekKey := none }
          "bob" "2025-W41")
        = migrateState
            { version := some 2, name := some "bob", settings := none, quests := none,
              history := some [], xp := some 40, level := some 2, streak := some 3,
              lastGoalDate := some (some 19999), weekKey := none }
            "bob" "2025-W41"
    ∧ (∀ l, (some [] : Option (List Entry)) = some l →
        (migrateState
          { version := some 2, name := some "bob", settings := none, quests := none,
            history := some [], xp := some 40, level := some 2, streak := some 3,
            lastGoalDate := some (some 19999), weekKey := none }
          "bob" "2025-W41").history = l)
    ∧ (∀ x, (some 40 : Option Int) = some x →
        (migrateState
          { version := some 2, name := some "bob", settings := none, quests := none,
            history := some [], xp := some 40, level := some 2, streak := some 3,
            lastGoalDate := some (some 19999), weekKey := none }
          "bob" "2025-W41").xp = x)
    ∧ (∀ x, (some 2 : Option Int) = some x →
        (migrateState
          { version := some 2, name := some "bob", settings := none, quests := none,
            history := some [], xp := some 40, level := some 2, streak := some 3,
            lastGoalDate := some (some 19999), weekKey := none }
          "bob" "2025-W41").level = x)
    ∧ (∀ x, (some 3 : Option Int) = some x →
        (migrateState
          { version := some 2, name := some "bob", settings := none, quests := none,
            history := some [], xp := some 40, level := some 2, streak := some 3,
            lastGoalDate := some (some 19999), weekKey := none }
          "bob" "2025-W41").streak = x)
    ∧ (∀ x, (some (some 19999) : Option (Option Nat)) = some x →
        (migrateState
          { version := some 2, name := some "bob", settings := none, quests := none,
            history := some [], xp := some 40, level := some 2, streak := some 3,
            lastGoalDate := some (some 19999), weekKey := none }
          "bob" "2025-W41").lastGoalDate = x) :=
  migrate_backfills_weekKey
    { version := some 2, name := some "bob", settings := none, quests := none,
      history := some [], xp := some 40, level := some 2, streak := some 3,
      lastGoalDate := some (some 19999), weekKey := none }
    "bob" "2025-W41" rfl

/-- C4: for a record whose stored `weekKey` differs from the current ISO
week key, the weekly-reset reconciliation (with a profile active) sets
level to 1 and XP to 0 and stamps the current week key; every other field —
history, streak, lastGoalDate, quests, settings — is unchanged, and a record
already carrying the key of the current week is returned unchanged. -/
theorem weeklyReset_resets_and_frames (person nowKey : String) (s : PersonState)
    (hp : person ≠ "") :
    (s.weekKey ≠ nowKey →
      weeklyResetCheck person nowKey s
        = { s with level := 1, xp := 0, weekKey := nowKey })
    ∧ (s.weekKey = nowKey → weeklyResetCheck person nowKey s = s)
    ∧ (weeklyResetCheck person nowKey s).history = s.history
    ∧ (weeklyResetCheck person nowKey s).streak = s.streak
    ∧ (weeklyResetCheck person nowKey s).lastGoalDate = s.lastGoalDate
    ∧ (weeklyResetCheck person nowKey s).quests = s.quests
    ∧ (weeklyResetCheck person nowKey s).settings = s.settings := by
  unfold weeklyResetCheck
  by_cases hw : s.weekKey = nowKey <;>
    simp [RESET_LEVEL_AT_WEEK_START, WEEKLY_RESET_LEVEL, WEEKLY_RESET_XP, hp, hw]

/-- Witness for C4: a concrete record carrying the key of last week, reconciled
against the new week. -/
theorem weeklyReset_resets_and_frames_witness :
    (("2025-W40" : String) ≠ "2025-W41" →
      weeklyResetCheck "bob" "2025-W41"
          { makeFreshState "bob" "2025-W40" with level := 7, xp := 120, streak := 3 }
        = { { makeFreshState "bob" "2025-W40" with level := 7, xp := 120, streak := 3 } with
            level := 1, xp := 0, weekKey := "2025-W41" })
    ∧ (("2025-W40" : String) = "2025-W41" →
      weeklyResetCheck "bob" "2025-W41"
          { makeFreshState "bob" "2025-W40" with level := 7, xp := 120, streak := 3 }
        = { makeFreshState "bob" "2025-W40" with level := 7, xp := 120, streak := 3 })
    ∧ (weeklyResetCheck "bob" "2025-W41"
        { makeFreshState "bob" "2025-W40" with level := 7, xp := 120, streak := 3 }).history
        = ({ makeFreshState "bob" "2025-W40" with level := 7, xp := 120, streak := 3 }).history
    ∧ (weeklyResetCheck "bob" "2025-W41"
        { makeFreshState "bob" "2025-W40" with level := 7, xp := 120, streak := 3 }).streak
        = ({ makeFreshState "bob" "2025-W40" with level := 7, xp := 120, streak := 3 }).streak
    ∧ (weeklyResetCheck "bob" "2025-W41"
        { makeFreshState "bob" "2025-W40" with level := 7, xp := 120, streak := 3 }).lastGoalDate
        = ({ makeFreshState "bob" "2025-W40" with level := 7, xp := 120, streak := 3 }).lastGoalDate
    ∧ (weeklyResetCheck "bob" "2025-W41"
        { makeFreshState "bob" "2025-W40" with level := 7, xp := 120, streak := 3 }).quests
        = ({ makeFreshState "bob" "2025-W40" with level := 7, xp := 120, streak := 3 }).quests
    ∧ (weeklyResetCheck "bob" "2025-W41"
        { makeFreshState "bob" "2025-W40" with level := 7, xp := 120, streak := 3 }).settings
        = ({ makeFreshState "bob" "2025-W40" with level := 7, xp := 120, streak := 3 }).settings :=
  weeklyReset_resets_and_frames "bob" "2025-W41"
    { makeFreshState "bob" "2025-W40" with level := 7, xp := 120, streak := 3 }
    (by decide)

/-- C1: the claimed invariant fails on the code.  Applying a single
300-point action to a fresh record (with profile "bob" active) yields a
record with `level = 3` but `xp = 300`: the remainder of the level-up loop is
discarded and the un-reduced total is stored, so the stored XP is NOT below
`threshold(3) = 250`.  Logging a further zero-point action then re-runs the
loop on the same stored total and lifts the level again, to 4 — the same
XP is consumed twice. -/
theorem addEntry_stores_unreduced_xp :
    ((addEntry "bob" (makeFreshState "bob" "2025-W41") act300 20000 "e1" 5).toOption.map
      (fun s => (s.xp, s.level)) = some (300, 3))
    ∧ ¬ ((300 : Int) < xpForLevel 3)
    ∧ (((addEntry "bob" (makeFreshState "bob" "2025-W41") act300 20000 "e1" 5).bind
          (fun s1 => addEntry "bob" s1
            { title := "Focus block (Short break)", category := some "Ops",
              points := 0, emoji := none, questId := none } 20000 "e2" 6)).toOption.map
        (fun s => (s.xp, s.level)) = some (300, 4)) := by
  refine ⟨?_, by decide, ?_⟩ <;>
    simp [addEntry, act300, levelLoop_of_le, levelLoop_of_lt, xpForLevel, jsOrStr,
      makeFreshState, sumOnDay, defaultSettings, Except.toOption, Except.bind]

/-- C2: the new level after one action is the result of the terminating
loop "while XP ≥ threshold(level): subtract threshold(level) from XP,
increment level", whose step and exit equations are stated explicitly; with
`threshold(1) = 100` and `threshold(2) = 175`, a 300-point action applied at
level 1 with 0 XP ends at level 3, an advance of more than one level in a
single call. -/
theorem addEntry_level_cascades (person : String) (s : PersonState) (args : ActionArgs)
    (today : Nat) (newId : String) (now : Nat) (hp : person ≠ "") :
    (∃ s2, addEntry person s args today newId now = Except.ok s2
        ∧ s2.level = (levelLoop s.level (s.xp + args.points)).1)
    ∧ (∀ l r : Int, xpForLevel l ≤ r →
        levelLoop l r = levelLoop (l + 1) (r - xpForLevel l))
    ∧ (∀ l r : Int, r < xpForLevel l → levelLoop l r = (l, r))
    ∧ xpForLevel 1 = 100
    ∧ xpForLevel 2 = 175
    ∧ (∃ s3, addEntry person (makeFreshState person "2025-W41") act300 20000 "e1" 5
          = Except.ok s3
        ∧ s3.level = 3
        ∧ (makeFreshState person "2025-W41").level + 1 < s3.level) := by
  refine ⟨?_, levelLoop_of_le, levelLoop_of_lt, by decide, by decide, ?_⟩
  · unfold addEntry
    rw [if_neg hp]
    exact ⟨_, rfl, rfl⟩
  · unfold addEntry
    rw [if_neg hp]
    refine ⟨_, rfl, ?_, ?_⟩ <;>
      simp [act300, levelLoop_of_le, levelLoop_of_lt, xpForLevel, makeFreshState]

/-- Witness for C2 at a concrete input: profile "bob", a fresh record, and
the 300-point action. -/
theorem addEntry_level_cascades_witness :
    (∃ s2, addEntry "bob" (makeFreshState "bob" "2025-W41") act300 20000 "e1" 5
        = Except.ok s2
        ∧ s2.level = (levelLoop (makeFreshState "bob" "2025-W41").level
            ((makeFreshState "bob" "2025-W41").xp + act300.points)).1)
    ∧ (∀ l r : Int, xpForLevel l ≤ r →
        levelLoop l r = levelLoop (l + 1) (r - xpForLevel l))
    ∧ (∀ l r : Int, r < xpForLevel l → levelLoop l r = (l, r))
    ∧ xpForLevel 1 = 100
    ∧ xpForLevel 2 = 175
    ∧ (∃ s3, addEntry "bob" (makeFreshState "bob" "2025-W41") act300 20000 "e1" 5
          = Except.ok s3
        ∧ s3.level = 3
        ∧ (makeFreshState "bob" "2025-W41").level + 1 < s3.level) :=
  addEntry_level_cascades "bob" (makeFreshState "bob" "2025-W41") act300
    20000 "e1" 5 (by decide)

/-- C3: the streak law of `addEntry`.  With an active profile, appending an
action on day `today` brings the total for today to (previous total today) +
(action points); if that total meets the daily goal and the goal was not
already satisfied today (`lastGoalDate ≠ today`), the streak becomes
`streak + 1` when `lastGoalDate` is yesterday (`today - 1`) and `1`
otherwise, and `lastGoalDate` becomes `today`; if the goal was already
satisfied today, or the total for today is still below the goal, streak and
`lastGoalDate` are unchanged. -/
theorem addEntry_streak_law (person : String) (s : PersonState) (args : ActionArgs)
    (today : Nat) (newId : String) (now : Nat) (hp : person ≠ "") :
    ∃ s2, addEntry person s args today newId now = Except.ok s2
      ∧ (sumOnDay s.history today + args.points ≥ s.settings.dailyGoal
            ∧ s.lastGoalDate ≠ some today →
          s2.lastGoalDate = some today
          ∧ s2.streak = (if s.lastGoalDate = some (today - 1) then s.streak + 1 else 1))
      ∧ (s.lastGoalDate = some today →
          s2.streak = s.streak ∧ s2.lastGoalDate = s.lastGoalDate)
      ∧ (sumOnDay s.history today + args.points < s.settings.dailyGoal →
          s2.streak = s.streak ∧ s2.lastGoalDate = s.lastGoalDate) := by
  have hsum : sumOnDay (s.history ++
      [{ id := newId, date := today, questId := args.questId, title := args.title,
         category := jsOrStr args.category "General", points := args.points,
         emoji := args.emoji, timestamp := now }]) today
      = sumOnDay s.history today + args.points :=
    sumOnDay_append_today _ _ _ rfl
  unfold addEntry
  rw [if_neg hp]
  refine ⟨_, rfl, ?_, ?_, ?_⟩
  · rintro ⟨hge, hne⟩
    simp [hsum, hge, hne]
  · intro hlast
    simp [hsum, hlast]
  · intro hlt
    simp [hsum, not_le.mpr hlt]

/-- Witness for C3 at a concrete input: profile "bob", goal 100, streak 4
with the goal last met yesterday (day 19999), a 300-point action on day
20000. -/
theorem addEntry_streak_law_witness :
    ∃ s2, addEntry "bob"
        { makeFreshState "bob" "2025-W41" with streak := 4, lastGoalDate := some 19999 }
        act300 20000 "e1" 5 = Except.ok s2
      ∧ (sumOnDay ({ makeFreshState "bob" "2025-W41" with
              streak := 4, lastGoalDate := some 19999 } : PersonState).history 20000
            + act300.points
            ≥ ({ makeFreshState "bob" "2025-W41" with
                streak := 4, lastGoalDate := some 19999 } : PersonState).settings.dailyGoal
          ∧ ({ makeFreshState "bob" "2025-W41" with
              streak := 4, lastGoalDate := some 19999 } : PersonState).lastGoalDate
            ≠ some 20000 →
          s2.lastGoalDate = some 20000
          ∧ s2.streak = (if ({ makeFreshState "bob" "2025-W41" with
                streak := 4, lastGoalDate := some 19999 } : PersonState).lastGoalDate
                = some (20000 - 1)
              then ({ makeFreshState "bob" "2025-W41" with
                streak := 4, lastGoalDate := some 19999 } : PersonState).streak + 1
              else 1))
      ∧ (({ makeFreshState "bob" "2025-W41" with
            streak := 4, lastGoalDate := some 19999 } : PersonState).lastGoalDate
            = some 20000 →
          s2.streak = ({ makeFreshState "bob" "2025-W41" with
              streak := 4, lastGoalDate := some 19999 } : PersonState).streak
          ∧ s2.lastGoalDate = ({ makeFreshState "bob" "2025-W41" with
              streak := 4, lastGoalDate := some 19999 } : PersonState).lastGoalDate)
      ∧ (sumOnDay ({ makeFreshState "bob" "2025-W41" with
              streak := 4, lastGoalDate := some 19999 } : PersonState).history 20000
            + act300.points
            < ({ makeFreshState "bob" "2025-W41" with
                streak := 4, lastGoalDate := some 19999 } : PersonState).settings.dailyGoal →
          s2.streak = ({ makeFreshState "bob" "2025-W41" with
              streak := 4, lastGoalDate := some 19999 } : PersonState).streak
          ∧ s2.lastGoalDate = ({ makeFreshState "bob" "2025-W41" with
              streak := 4, lastGoalDate := some 19999 } : PersonState).lastGoalDate) :=
  addEntry_streak_law "bob"
    { makeFreshState "bob" "2025-W41" with streak := 4, lastGoalDate := some 19999 }
    act300 20000 "e1" 5 (by decide)

/-- C5 counterexample: an action with a NEGATIVE point value is not
rejected.  With profile "bob" active, logging a `-5`-point action on a
fresh record succeeds and mutates the record: the entry is appended
(history length 1) and the XP drops to `-5`.  No validation of the point
value happens in the logging path. -/
theorem negative_points_not_rejected :
    (addEntry "bob" (makeFreshState "bob" "2025-W41")
        { title := "Penalty", category := none, points := -5, emoji := none,
          questId := none } 20000 "e1" 5).toOption.map
      (fun s => (s.xp, s.history.length)) = some (-5, 1) := by
  simp [addEntry, levelLoop_of_lt, xpForLevel, jsOrStr, makeFreshState, sumOnDay,
    defaultSettings, Except.toOption]

/-- C5 (amended): logging with no active profile is rejected before any
state mutation and surfaced as the prompt "Select or add a person first.";
with an active profile, however, the action is applied whatever its point
value — the entry is appended as built and the points are added to XP
unvalidated. -/
theorem addEntry_profile_guard (person : String) (s : PersonState) (args : ActionArgs)
    (today : Nat) (newId : String) (now : Nat) :
    (person = "" →
      addEntry person s args today newId now
        = Except.error "Select or add a person first.")
    ∧ (person ≠ "" →
      ∃ s2, addEntry person s args today newId now = Except.ok s2
        ∧ s2.history = s.history ++
            [{ id := newId, date := today, questId := args.questId,
               title := args.title, category := jsOrStr args.category "General",
               points := args.points, emoji := args.emoji, timestamp := now }]
        ∧ s2.xp = s.xp + args.points) := by
  constructor
  · intro hp
    unfold addEntry
    rw [if_pos hp]
  · intro hp
    unfold addEntry
    rw [if_neg hp]
    exact ⟨_, rfl, rfl, rfl⟩

/-- Witness for C5 (amended): the guard fires for the empty profile and a
`-5`-point action goes through unvalidated for profile "bob". -/
theorem addEntry_profile_guard_witness :
    addEntry "" (makeFreshState "" "2025-W41")
        { title := "Penalty", category := none, points := -5, emoji := none,
          questId := none } 20000 "e1" 5
      = Except.error "Select or add a person first."
    ∧ ∃ s2, addEntry "bob" (makeFreshState "bob" "2025-W41")
          { title := "Penalty", category := none, points := -5, emoji := none,
            questId := none } 20000 "e1" 5 = Except.ok s2
        ∧ s2.history = (makeFreshState "bob" "2025-W41").history ++
            [{ id := "e1", date := 20000, questId := none, title := "Penalty",
               category := jsOrStr none "General", points := -5, emoji := none,
               timestamp := 5 }]
        ∧ s2.xp = (makeFreshState "bob" "2025-W41").xp + (-5) :=
  ⟨(addEntry_profile_guard "" (makeFreshState "" "2025-W41")
      { title := "Penalty", category := none, points := -5, emoji := none,
        questId := none } 20000 "e1" 5).1 rfl,
   (addEntry_profile_guard "bob" (makeFreshState "bob" "2025-W41")
      { title := "Penalty", category := none, points := -5, emoji := none,
        questId := none } 20000 "e1" 5).2 (by decide)⟩

/-- A history entry dated in the future: day 101 when today is day 100,
worth 50 points. -/
def futureEntry : Entry :=
  { id := "f1", date := 101, questId := none, title := "Paid",
    category := "Sales", points := 50, emoji := none, timestamp := 0 }

/-- A stored record for "bob" whose single history entry is `futureEntry`. -/
def futureParsed : Parsed :=
  { version := some 2, name := some "bob", settings := none, quests := none,
    history := some [futureEntry],
    xp := some 0, level := some 1, streak := some 0, lastGoalDate := some none,
    weekKey := some "2025-W41" }

def futureStorage : Storage := [(personKey "bob", Raw.good futureParsed)]

/-- C6 counterexample: the leaderboard filter has no upper date bound.  A
history entry dated one day AFTER today (outside the claimed inclusive
window `[today - 7, today]`) is counted: the week leaderboard credits "bob"
with its 50 points while the claimed window sum is 0. -/
theorem leaderboard_counts_future_entry :
    leaderboardRows ["bob"] futureStorage 100 "2025-W41" = [("bob", 50)]
    ∧ specWindowTotal "bob" futureStorage 100 "2025-W41" = 0
    ∧ ¬ specInWindow 100 101 := by
  refine ⟨by decide, by decide, by decide⟩

/-- A stored record for "amy" with one entry exactly 7 days old (day 93,
11 points) and one exactly 8 days old (day 92, 7 points), for today =
day 100. -/
def sevenDayEntry : Entry :=
  { id := "b1", date := 93, questId := none, title := "LinkedIn post",
    category := "Marketing", points := 11, emoji := none, timestamp := 0 }

def eightDayEntry : Entry :=
  { id := "b2", date := 92, questId := none, title := "Prospecting call",
    category := "Sales", points := 7, emoji := none, timestamp := 0 }

def boundaryParsed : Parsed :=
  { version := some 2, name := some "amy", settings := none, quests := none,
    history := some [sevenDayEntry, eightDayEntry],
    xp := some 0, level := some 1, streak := some 0, lastGoalDate := some none,
    weekKey := some "2025-W41" }

def boundaryStorage : Storage := [(personKey "amy", Raw.good boundaryParsed)]

/-- C6 (amended): the week leaderboard total sums the points of history
entries dated on or after `today - 7`; no upper bound is applied, so for a
record whose entries are all dated no later than today this coincides with
the claimed inclusive window `[today - 7, today]`.  An entry dated exactly
7 days before today is included and one dated 8 days before is excluded,
and with no profiles the result is the empty list. -/
theorem leaderboard_week_lower_bound (st : Storage) (today : Nat) (nowKey p : String)
    (hb : ∀ h ∈ (loadPersonState p st nowKey).history, h.date ≤ today) :
    leaderboardTotal p st today nowKey = specWindowTotal p st today nowKey
    ∧ leaderboardRows [] st today nowKey = []
    ∧ leaderboardRows ["amy"] boundaryStorage 100 "2025-W41" = [("amy", 11)]
    ∧ specInWindow 100 93
    ∧ ¬ specInWindow 100 92 := by
  refine ⟨?_, rfl, by decide, by decide, by decide⟩
  unfold leaderboardTotal specWindowTotal
  have hfil : (loadPersonState p st nowKey).history.filter
        (fun h => decide (today - 7 ≤ h.date))
      = (loadPersonState p st nowKey).history.filter
        (fun h => decide (specInWindow today h.date)) := by
    apply List.filter_congr
    intro h hmem
    rw [decide_eq_decide]
    exact ⟨fun hx => ⟨hx, hb h hmem⟩, fun hx => hx.1⟩
  rw [hfil]

/-- Witness for C6 (amended) at a concrete input: the boundary record for
"amy", whose entries are all dated before today. -/
theorem leaderboard_week_lower_bound_witness :
    leaderboardTotal "amy" boundaryStorage 100 "2025-W41"
        = specWindowTotal "amy" boundaryStorage 100 "2025-W41"
    ∧ leaderboardRows [] boundaryStorage 100 "2025-W41" = []
    ∧ leaderboardRows ["amy"] boundaryStorage 100 "2025-W41" = [("amy", 11)]
    ∧ specInWindow 100 93
    ∧ ¬ specInWindow 100 92 :=
  leaderboard_week_lower_bound boundaryStorage 100 "2025-W41" "amy" (by decide)

/-- C9: removing the active profile drops it from the name list but leaves
the storage backend untouched; re-adding the same (already stored) name
does not overwrite the stored record, so the record loaded afterward equals
the record loaded before the removal, and the name is listed again. -/
theorem remove_readd_restores (a : AppProfiles) (nowKey : String) (raw : Raw)
    (htrim : jsTrim a.person = a.person) (hp : a.person ≠ "")
    (hstored : getItem a.storage (personKey a.person) = some raw) :
    (addPerson a.person (removePerson a) nowKey).storage = a.storage
    ∧ loadPersonState a.person (addPerson a.person (removePerson a) nowKey).storage nowKey
        = loadPersonState a.person a.storage nowKey
    ∧ a.person ∈ (addPerson a.person (removePerson a) nowKey).profiles := by
  have hrm : (removePerson a).storage = a.storage := by
    unfold removePerson
    rw [if_neg hp]
  have hst : (addPerson a.person (removePerson a) nowKey).storage = a.storage := by
    simp [addPerson, htrim, hp, hrm, hstored]
  refine ⟨hst, by rw [hst], ?_⟩
  simp only [addPerson, htrim]
  rw [if_neg hp]
  by_cases hc : (removePerson a).profiles.contains a.person
  · simp only [hc, if_true]
    exact List.mem_of_elem_eq_true hc
  · rw [if_neg (by simpa using hc)]
    rw [mem_sortNames]
    simp

def sampleEntry : Entry :=
  { id := "h1", date := 95, questId := none, title := "Prospecting call",
    category := "Sales", points := 5, emoji := none, timestamp := 7 }

/-- The stored record and app state for the C9 witness. -/
def sampleParsed : Parsed :=
  { version := some 2, name := some "bob", settings := none, quests := none,
    history := some [sampleEntry],
    xp := some 5, level := some 1, streak := some 0, lastGoalDate := some none,
    weekKey := some "2025-W41" }

def sampleApp : AppProfiles :=
  { profiles := ["amy", "bob"],
    storage := [(personKey "bob", Raw.good sampleParsed)],
    person := "bob" }

/-- Witness for C9 at a concrete input: removing and re-adding "bob". -/
theorem remove_readd_restores_witness :
    (addPerson sampleApp.person (removePerson sampleApp) "2025-W41").storage
        = sampleApp.storage
    ∧ loadPersonState sampleApp.person
          (addPerson sampleApp.person (removePerson sampleApp) "2025-W41").storage
          "2025-W41"
        = loadPersonState sampleApp.person sampleApp.storage "2025-W41"
    ∧ sampleApp.person ∈ (addPerson sampleApp.person (removePerson sampleApp)
        "2025-W41").profiles :=
  remove_readd_restores sampleApp "2025-W41" (Raw.good sampleParsed)
    (by decide) (by decide) (by decide)
